import Mathlib

/-!
# heat_wave_hunter: the smart-car control sketch (`src/main.cpp`)

A shallow embedding of the Arduino sketch.  The sketch is a single sequential program
whose functions communicate through four global variables and act on the world through
`digitalWrite`, `analogWrite`, `delay` and `Serial`.  Each function of the sketch becomes a
function on an explicit `State`; every effect is appended to `State.trace`.

Modelling conventions.

* `float` globals hold the rational number the float denotes.  All comparisons of the
  sketch are comparisons with the constants `50.0` and `20`, which are exact, and the
  temperature conversion `r * 5.0 * 100.0 / 1024.0` is exact for every 10-bit reading.
  The distance conversion `pulse * 0.034 / 2` is computed over the rationals; it is exact
  at `pulse = 0`.
* The values returned by the hardware (`pulseIn`, `analogRead`) are inputs of the
  reading functions.
* `Event.call f` is a ghost event marking the entry of the sketch function `f`; the other
  events are the effects the source performs.
-/

namespace HeatWaveHunter

/-! ## Pin definitions and thresholds (lines 10-35) -/

def trigPin1 : Nat := 2
def echoPin1 : Nat := 3
def trigPin2 : Nat := 4
def echoPin2 : Nat := 5

def leftMotorPin1 : Nat := 6
def leftMotorPin2 : Nat := 7
def rightMotorPin1 : Nat := 8
def rightMotorPin2 : Nat := 9
def motorEnableA : Nat := 10
def motorEnableB : Nat := 11

def waterPumpPin : Nat := 12

def maxTemperature : ℚ := 50.0
def gasThreshold : Int := 400
def safeDistance : Int := 20

abbrev HIGH : Bool := true
abbrev LOW : Bool := false

/-! ## Events and state -/

/-- The functions of the sketch. -/
inductive Fn where
  | setup | loop
  | readUltrasonicSensors | readTemperature | readGasLevel
  | checkHazards | activateWaterSpray | navigateCar
  | moveForward | moveBackward | turnRight | turnLeft | stopCar
  | printSensorReadings
  deriving DecidableEq, Repr

/-- The observable effects of the sketch, plus the ghost event `call`. -/
inductive Event where
  | call (f : Fn)
  | serialBegin (baud : Nat)
  | pinMode (pin : Nat) (output : Bool)
  | digitalWrite (pin : Nat) (level : Bool)
  | analogWrite (pin : Nat) (value : Nat)
  | delay (ms : Nat)
  | delayMicroseconds (us : Nat)
  | print (text : String)
  | printFloat (value : ℚ)
  | println (text : String)
  | printlnInt (value : Int)
  deriving DecidableEq

/-- The global variables of the sketch (lines 37-41), the levels of the digital pins, the
duty values of the PWM pins, and the effects performed so far. -/
structure State where
  frontDistance : ℚ
  sideDistance : ℚ
  temperature : ℚ
  gasLevel : Int
  pins : Nat → Bool
  pwm : Nat → Nat
  trace : List Event

/-- The state at power-on: the globals are initialised to 0 (lines 38-41). -/
def powerOn : State :=
  { frontDistance := 0, sideDistance := 0, temperature := 0, gasLevel := 0,
    pins := fun _ => LOW, pwm := fun _ => 0, trace := [] }

/-- The values the hardware returns during one iteration of `loop`: the two `pulseIn`
durations (microseconds) and the two `analogRead` values. -/
structure Readings where
  echo1 : Nat
  echo2 : Nat
  heat : Int
  gas : Int

/-! ## Primitive effects -/

def emit (e : Event) (s : State) : State :=
  { s with trace := s.trace ++ [e] }

def enter (f : Fn) (s : State) : State := emit (Event.call f) s

def digitalWrite (pin : Nat) (level : Bool) (s : State) : State :=
  { s with pins := Function.update s.pins pin level,
           trace := s.trace ++ [Event.digitalWrite pin level] }

def analogWrite (pin : Nat) (value : Nat) (s : State) : State :=
  { s with pwm := Function.update s.pwm pin value,
           trace := s.trace ++ [Event.analogWrite pin value] }

def pinMode (pin : Nat) (output : Bool) (s : State) : State :=
  emit (Event.pinMode pin output) s

def delay (ms : Nat) (s : State) : State := emit (Event.delay ms) s

def delayMicroseconds (us : Nat) (s : State) : State := emit (Event.delayMicroseconds us) s

def serialPrintln (text : String) (s : State) : State := emit (Event.println text) s

def serialPrint (text : String) (s : State) : State := emit (Event.print text) s

/-! ## The sketch -/

/-- Lines 43-70. -/
def setup (s : State) : State :=
  s |> enter Fn.setup
    |> emit (Event.serialBegin 9600)
    |> pinMode trigPin1 true
    |> pinMode echoPin1 false
    |> pinMode trigPin2 true
    |> pinMode echoPin2 false
    |> pinMode leftMotorPin1 true
    |> pinMode leftMotorPin2 true
    |> pinMode rightMotorPin1 true
    |> pinMode rightMotorPin2 true
    |> pinMode motorEnableA true
    |> pinMode motorEnableB true
    |> pinMode waterPumpPin true
    |> analogWrite motorEnableA 200
    |> analogWrite motorEnableB 200
    |> serialPrintln "Smart Car Control System Initialized"

/-- Lines 97-114; `pulse1` and `pulse2` are the values returned by the two `pulseIn`
calls. -/
def readUltrasonicSensors (pulse1 pulse2 : Nat) (s : State) : State :=
  let s := s |> enter Fn.readUltrasonicSensors
    |> digitalWrite trigPin1 LOW
    |> delayMicroseconds 2
    |> digitalWrite trigPin1 HIGH
    |> delayMicroseconds 10
    |> digitalWrite trigPin1 LOW
  let s := { s with frontDistance := (pulse1 : ℚ) * 0.034 / 2 }
  let s := s
    |> digitalWrite trigPin2 LOW
    |> delayMicroseconds 2
    |> digitalWrite trigPin2 HIGH
    |> delayMicroseconds 10
    |> digitalWrite trigPin2 LOW
  { s with sideDistance := (pulse2 : ℚ) * 0.034 / 2 }

/-- Lines 116-123; `sensorValue` is the value returned by `analogRead(heatSensorPin)`. -/
def readTemperature (sensorValue : Int) (s : State) : State :=
  let s := enter Fn.readTemperature s
  { s with temperature := ((sensorValue : ℚ) * 5.0 * 100.0) / 1024.0 }

/-- Lines 125-129; `value` is the value returned by `analogRead(gasSensorPin)`. -/
def readGasLevel (value : Int) (s : State) : State :=
  let s := enter Fn.readGasLevel s
  { s with gasLevel := value }

/-- Lines 153-159. -/
def activateWaterSpray (s : State) : State :=
  s |> enter Fn.activateWaterSpray
    |> serialPrintln "Activating water spray system"
    |> digitalWrite waterPumpPin HIGH
    |> delay 2000
    |> digitalWrite waterPumpPin LOW

/-- Lines 131-151. -/
def checkHazards (s : State) : Bool × State :=
  let s := enter Fn.checkHazards s
  let hazardDetected := false
  let (hazardDetected, s) :=
    if s.temperature > maxTemperature then
      (true, s |> serialPrintln "WARNING: High temperature detected!" |> activateWaterSpray)
    else (hazardDetected, s)
  let (hazardDetected, s) :=
    if s.gasLevel > gasThreshold then
      (true, s |> serialPrintln "WARNING: Harmful gas detected!")
    else (hazardDetected, s)
  (hazardDetected, s)

/-- Lines 188-195. -/
def moveForward (s : State) : State :=
  s |> enter Fn.moveForward
    |> digitalWrite leftMotorPin1 HIGH
    |> digitalWrite leftMotorPin2 LOW
    |> digitalWrite rightMotorPin1 HIGH
    |> digitalWrite rightMotorPin2 LOW
    |> serialPrintln "Moving forward"

/-- Lines 197-204. -/
def moveBackward (s : State) : State :=
  s |> enter Fn.moveBackward
    |> digitalWrite leftMotorPin1 LOW
    |> digitalWrite leftMotorPin2 HIGH
    |> digitalWrite rightMotorPin1 LOW
    |> digitalWrite rightMotorPin2 HIGH
    |> serialPrintln "Moving backward"

/-- Lines 206-213. -/
def turnRight (s : State) : State :=
  s |> enter Fn.turnRight
    |> digitalWrite leftMotorPin1 HIGH
    |> digitalWrite leftMotorPin2 LOW
    |> digitalWrite rightMotorPin1 LOW
    |> digitalWrite rightMotorPin2 HIGH
    |> serialPrintln "Turning right"

/-- Lines 215-222. -/
def turnLeft (s : State) : State :=
  s |> enter Fn.turnLeft
    |> digitalWrite leftMotorPin1 LOW
    |> digitalWrite leftMotorPin2 HIGH
    |> digitalWrite rightMotorPin1 HIGH
    |> digitalWrite rightMotorPin2 LOW
    |> serialPrintln "Turning left"

/-- Lines 224-231. -/
def stopCar (s : State) : State :=
  s |> enter Fn.stopCar
    |> digitalWrite leftMotorPin1 LOW
    |> digitalWrite leftMotorPin2 LOW
    |> digitalWrite rightMotorPin1 LOW
    |> digitalWrite rightMotorPin2 LOW
    |> serialPrintln "Car stopped"

/-- Lines 161-186. -/
def navigateCar (s : State) : State :=
  let s := enter Fn.navigateCar s
  if s.frontDistance < safeDistance then
    if s.sideDistance > safeDistance then
      turnRight s
    else
      s |> moveBackward
        |> delay 500
        |> turnRight
        |> delay 700
  else
    moveForward s

/-- Lines 233-243. -/
def printSensorReadings (s : State) : State :=
  s |> enter Fn.printSensorReadings
    |> serialPrint "Front Distance: "
    |> emit (Event.printFloat s.frontDistance)
    |> serialPrint " cm | Side Distance: "
    |> emit (Event.printFloat s.sideDistance)
    |> serialPrint " cm | Temperature: "
    |> emit (Event.printFloat s.temperature)
    |> serialPrint " Â°C | Gas Level: "
    |> emit (Event.printlnInt s.gasLevel)

/-- Lines 72-95: one iteration of `loop`, given the values the hardware returns. -/
def loop (io : Readings) (s : State) : State :=
  let s := s |> enter Fn.loop
    |> readUltrasonicSensors io.echo1 io.echo2
    |> readTemperature io.heat
    |> readGasLevel io.gas
    |> printSensorReadings
  let (hazard, s) := checkHazards s
  let s := if hazard then stopCar s else navigateCar s
  delay 100 s

/-! ## Observations on traces and pins -/

/-- The events a state transformer appends to the trace when run from `s`. -/
def events (f : State → State) (s : State) : List Event :=
  (f s).trace.drop s.trace.length

/-- The five actuator functions (lines 188-231): the movement directives of the sketch. -/
def Fn.isMovement : Fn → Bool
  | Fn.moveForward | Fn.moveBackward | Fn.turnRight | Fn.turnLeft | Fn.stopCar => true
  | _ => false

/-- The actuator functions invoked in a run, in order. -/
def movementCalls (es : List Event) : List Fn :=
  es.filterMap fun e =>
    match e with
    | Event.call f => if f.isMovement then some f else none
    | _ => none

def isMotorPin (pin : Nat) : Bool :=
  pin == leftMotorPin1 || pin == leftMotorPin2 || pin == rightMotorPin1 || pin == rightMotorPin2

/-- The writes to the four motor direction pins in a run, in order. -/
def motorWrites (es : List Event) : List Event :=
  es.filter fun e =>
    match e with
    | Event.digitalWrite pin _ => isMotorPin pin
    | _ => false

/-- The writes to the water-pump pin in a run, in order. -/
def pumpWrites (es : List Event) : List Event :=
  es.filter fun e =>
    match e with
    | Event.digitalWrite pin _ => pin == waterPumpPin
    | _ => false

/-- The `delay` durations (milliseconds) of a run, in order. -/
def holds (es : List Event) : List Nat :=
  es.filterMap fun e =>
    match e with
    | Event.delay ms => some ms
    | _ => none

/-- The direction signals (pin1, pin2) of the left motor channel. -/
def leftChannel (s : State) : Bool × Bool := (s.pins leftMotorPin1, s.pins leftMotorPin2)

/-- The direction signals (pin1, pin2) of the right motor channel. -/
def rightChannel (s : State) : Bool × Bool := (s.pins rightMotorPin1, s.pins rightMotorPin2)

def forward : Bool × Bool := (HIGH, LOW)
def reverse : Bool × Bool := (LOW, HIGH)
def off : Bool × Bool := (LOW, LOW)

/-- The pin levels reached by replaying the events `es` from the levels `pins`: only a
`digitalWrite` changes a level. -/
def pinsAfter (pins : Nat → Bool) : List Event → Nat → Bool
  | [] => pins
  | Event.digitalWrite pin level :: es => pinsAfter (Function.update pins pin level) es
  | _ :: es => pinsAfter pins es

/-- The (left, right) channel signals of a pin assignment. -/
def motorPattern (pins : Nat → Bool) : (Bool × Bool) × (Bool × Bool) :=
  ((pins leftMotorPin1, pins leftMotorPin2), (pins rightMotorPin1, pins rightMotorPin2))

/-- For each `delay` of the run `es` replayed from `pins`: its duration and the motor
pattern that is held while it lasts. -/
def heldPatterns (pins : Nat → Bool) : List Event → List (Nat × ((Bool × Bool) × (Bool × Bool)))
  | [] => []
  | Event.delay ms :: es => (ms, motorPattern pins) :: heldPatterns pins es
  | Event.digitalWrite pin level :: es => heldPatterns (Function.update pins pin level) es
  | _ :: es => heldPatterns pins es

/-- Whether an event acts on the pin `pin`: a `pinMode`, `digitalWrite` or `analogWrite`
of that pin. -/
def touchesPin (pin : Nat) : Event → Bool
  | Event.pinMode p _ => p == pin
  | Event.digitalWrite p _ => p == pin
  | Event.analogWrite p _ => p == pin
  | _ => false

/-- The pin writes and millisecond delays of a run, in order (calls and log lines
dropped). -/
def actuation (es : List Event) : List Event :=
  es.filter fun e =>
    match e with
    | Event.digitalWrite _ _ => true
    | Event.analogWrite _ _ => true
    | Event.delay _ => true
    | _ => false

/-- The state `loop` hands to `checkHazards`: the prior state after the three reading
functions and `printSensorReadings` (lines 75-80). -/
def sensed (io : Readings) (s : State) : State :=
  s |> enter Fn.loop
    |> readUltrasonicSensors io.echo1 io.echo2
    |> readTemperature io.heat
    |> readGasLevel io.gas
    |> printSensorReadings


/-! ## Basic facts about the embedding -/

theorem maxTemperature_eq : maxTemperature = 50 := by norm_num [maxTemperature]

theorem events_of_trace {f : State → State} {s : State} {es : List Event}
    (h : (f s).trace = s.trace ++ es) : events f s = es := by
  simp [events, h]

theorem loop_eq (io : Readings) (s : State) :
    loop io s = delay 100 (if (checkHazards (sensed io s)).1 then stopCar (checkHazards (sensed io s)).2
      else navigateCar (checkHazards (sensed io s)).2) := rfl

theorem checkHazards_fst (t : State) :
    (checkHazards t).1 = (decide (50 < t.temperature) || decide (400 < t.gasLevel)) := by
  by_cases h1 : 50 < t.temperature <;> by_cases h2 : 400 < t.gasLevel <;>
    simp [checkHazards, enter, emit, maxTemperature_eq, gasThreshold, h1, h2, activateWaterSpray,
      serialPrintln, digitalWrite, delay]

theorem checkHazards_trace (t : State) :
    (checkHazards t).2.trace = t.trace ++ (Event.call Fn.checkHazards ::
      ((if 50 < t.temperature then
          [Event.println "WARNING: High temperature detected!", Event.call Fn.activateWaterSpray,
           Event.println "Activating water spray system", Event.digitalWrite waterPumpPin HIGH,
           Event.delay 2000, Event.digitalWrite waterPumpPin LOW]
        else []) ++
       (if 400 < t.gasLevel then [Event.println "WARNING: Harmful gas detected!"] else []))) := by
  by_cases h1 : 50 < t.temperature <;> by_cases h2 : 400 < t.gasLevel <;>
    simp [checkHazards, enter, emit, maxTemperature_eq, gasThreshold, h1, h2, activateWaterSpray,
      serialPrintln, digitalWrite, delay]

theorem checkHazards_globals (t : State) :
    (checkHazards t).2.frontDistance = t.frontDistance ∧
    (checkHazards t).2.sideDistance = t.sideDistance ∧
    (checkHazards t).2.temperature = t.temperature ∧
    (checkHazards t).2.gasLevel = t.gasLevel ∧
    (checkHazards t).2.pwm = t.pwm := by
  by_cases h1 : 50 < t.temperature <;> by_cases h2 : 400 < t.gasLevel <;>
    simp [checkHazards, enter, emit, maxTemperature_eq, gasThreshold, h1, h2, activateWaterSpray,
      serialPrintln, digitalWrite, delay]

theorem checkHazards_pins (t : State) (pin : Nat) (h : pin ≠ waterPumpPin) :
    (checkHazards t).2.pins pin = t.pins pin := by
  by_cases h1 : 50 < t.temperature <;> by_cases h2 : 400 < t.gasLevel <;>
    simp [checkHazards, enter, emit, maxTemperature_eq, gasThreshold, h1, h2, activateWaterSpray,
      serialPrintln, digitalWrite, delay, Function.update, h]

theorem navigateCar_trace (u : State) :
    (navigateCar u).trace = u.trace ++ (Event.call Fn.navigateCar ::
      (if u.frontDistance < 20 then
        if 20 < u.sideDistance then
          [Event.call Fn.turnRight,
           Event.digitalWrite leftMotorPin1 HIGH, Event.digitalWrite leftMotorPin2 LOW,
           Event.digitalWrite rightMotorPin1 LOW, Event.digitalWrite rightMotorPin2 HIGH,
           Event.println "Turning right"]
        else
          [Event.call Fn.moveBackward,
           Event.digitalWrite leftMotorPin1 LOW, Event.digitalWrite leftMotorPin2 HIGH,
           Event.digitalWrite rightMotorPin1 LOW, Event.digitalWrite rightMotorPin2 HIGH,
           Event.println "Moving backward", Event.delay 500,
           Event.call Fn.turnRight,
           Event.digitalWrite leftMotorPin1 HIGH, Event.digitalWrite leftMotorPin2 LOW,
           Event.digitalWrite rightMotorPin1 LOW, Event.digitalWrite rightMotorPin2 HIGH,
           Event.println "Turning right", Event.delay 700]
      else
        [Event.call Fn.moveForward,
         Event.digitalWrite leftMotorPin1 HIGH, Event.digitalWrite leftMotorPin2 LOW,
         Event.digitalWrite rightMotorPin1 HIGH, Event.digitalWrite rightMotorPin2 LOW,
         Event.println "Moving forward"])) := by
  by_cases h1 : u.frontDistance < 20 <;> by_cases h2 : 20 < u.sideDistance <;>
    simp [navigateCar, moveForward, moveBackward, turnRight, enter, emit, safeDistance, h1, h2,
      serialPrintln, digitalWrite, delay]

theorem stopCar_trace (u : State) :
    (stopCar u).trace = u.trace ++
      [Event.call Fn.stopCar,
       Event.digitalWrite leftMotorPin1 LOW, Event.digitalWrite leftMotorPin2 LOW,
       Event.digitalWrite rightMotorPin1 LOW, Event.digitalWrite rightMotorPin2 LOW,
       Event.println "Car stopped"] := by
  simp [stopCar, enter, emit, serialPrintln, digitalWrite]

theorem sensed_trace (io : Readings) (s : State) :
    (sensed io s).trace = s.trace ++
      [Event.call Fn.loop, Event.call Fn.readUltrasonicSensors,
       Event.digitalWrite trigPin1 LOW, Event.delayMicroseconds 2,
       Event.digitalWrite trigPin1 HIGH, Event.delayMicroseconds 10,
       Event.digitalWrite trigPin1 LOW,
       Event.digitalWrite trigPin2 LOW, Event.delayMicroseconds 2,
       Event.digitalWrite trigPin2 HIGH, Event.delayMicroseconds 10,
       Event.digitalWrite trigPin2 LOW,
       Event.call Fn.readTemperature, Event.call Fn.readGasLevel,
       Event.call Fn.printSensorReadings,
       Event.print "Front Distance: ", Event.printFloat ((io.echo1 : ℚ) * 0.034 / 2),
       Event.print " cm | Side Distance: ", Event.printFloat ((io.echo2 : ℚ) * 0.034 / 2),
       Event.print " cm | Temperature: ",
       Event.printFloat (((io.heat : ℚ) * 5.0 * 100.0) / 1024.0),
       Event.print " Â°C | Gas Level: ", Event.printlnInt io.gas] := by
  simp [sensed, readUltrasonicSensors, readTemperature, readGasLevel, printSensorReadings,
    enter, emit, serialPrint, digitalWrite, delayMicroseconds]

theorem sensed_pins (io : Readings) (s : State) (pin : Nat) (h1 : pin ≠ trigPin1)
    (h2 : pin ≠ trigPin2) : (sensed io s).pins pin = s.pins pin := by
  simp [sensed, readUltrasonicSensors, readTemperature, readGasLevel, printSensorReadings,
    enter, emit, serialPrint, digitalWrite, delayMicroseconds, Function.update, h1, h2]

theorem events_loop (io : Readings) (s : State) :
    events (loop io) s =
      [Event.call Fn.loop, Event.call Fn.readUltrasonicSensors,
       Event.digitalWrite trigPin1 LOW, Event.delayMicroseconds 2,
       Event.digitalWrite trigPin1 HIGH, Event.delayMicroseconds 10,
       Event.digitalWrite trigPin1 LOW,
       Event.digitalWrite trigPin2 LOW, Event.delayMicroseconds 2,
       Event.digitalWrite trigPin2 HIGH, Event.delayMicroseconds 10,
       Event.digitalWrite trigPin2 LOW,
       Event.call Fn.readTemperature, Event.call Fn.readGasLevel,
       Event.call Fn.printSensorReadings,
       Event.print "Front Distance: ", Event.printFloat (sensed io s).frontDistance,
       Event.print " cm | Side Distance: ", Event.printFloat (sensed io s).sideDistance,
       Event.print " cm | Temperature: ", Event.printFloat (sensed io s).temperature,
       Event.print " Â°C | Gas Level: ", Event.printlnInt (sensed io s).gasLevel,
       Event.call Fn.checkHazards] ++
      (if 50 < (sensed io s).temperature then
          [Event.println "WARNING: High temperature detected!", Event.call Fn.activateWaterSpray,
           Event.println "Activating water spray system", Event.digitalWrite waterPumpPin HIGH,
           Event.delay 2000, Event.digitalWrite waterPumpPin LOW]
        else []) ++
      (if 400 < (sensed io s).gasLevel then [Event.println "WARNING: Harmful gas detected!"]
        else []) ++
      (if 50 < (sensed io s).temperature ∨ 400 < (sensed io s).gasLevel then
          [Event.call Fn.stopCar,
           Event.digitalWrite leftMotorPin1 LOW, Event.digitalWrite leftMotorPin2 LOW,
           Event.digitalWrite rightMotorPin1 LOW, Event.digitalWrite rightMotorPin2 LOW,
           Event.println "Car stopped"]
        else if (sensed io s).frontDistance < 20 then
          if 20 < (sensed io s).sideDistance then
            [Event.call Fn.navigateCar, Event.call Fn.turnRight,
             Event.digitalWrite leftMotorPin1 HIGH, Event.digitalWrite leftMotorPin2 LOW,
             Event.digitalWrite rightMotorPin1 LOW, Event.digitalWrite rightMotorPin2 HIGH,
             Event.println "Turning right"]
          else
            [Event.call Fn.navigateCar, Event.call Fn.moveBackward,
             Event.digitalWrite leftMotorPin1 LOW, Event.digitalWrite leftMotorPin2 HIGH,
             Event.digitalWrite rightMotorPin1 LOW, Event.digitalWrite rightMotorPin2 HIGH,
             Event.println "Moving backward", Event.delay 500,
             Event.call Fn.turnRight,
             Event.digitalWrite leftMotorPin1 HIGH, Event.digitalWrite leftMotorPin2 LOW,
             Event.digitalWrite rightMotorPin1 LOW, Event.digitalWrite rightMotorPin2 HIGH,
             Event.println "Turning right", Event.delay 700]
        else
          [Event.call Fn.navigateCar, Event.call Fn.moveForward,
           Event.digitalWrite leftMotorPin1 HIGH, Event.digitalWrite leftMotorPin2 LOW,
           Event.digitalWrite rightMotorPin1 HIGH, Event.digitalWrite rightMotorPin2 LOW,
           Event.println "Moving forward"]) ++
      [Event.delay 100] := by
  apply events_of_trace
  have hg := checkHazards_globals (sensed io s)
  rw [loop_eq, checkHazards_fst]
  by_cases h1 : 50 < (sensed io s).temperature <;> by_cases h2 : 400 < (sensed io s).gasLevel <;>
    by_cases h3 : (sensed io s).frontDistance < 20 <;>
    by_cases h4 : 20 < (sensed io s).sideDistance <;>
    simp [h1, h2, h3, h4, delay, emit, stopCar_trace, navigateCar_trace, checkHazards_trace, hg,
      sensed_trace] <;> exact ⟨rfl, rfl, rfl, rfl⟩

theorem sensed_temperature (io : Readings) (s : State) :
    (sensed io s).temperature = ((io.heat : ℚ) * 5.0 * 100.0) / 1024.0 := rfl

theorem sensed_gasLevel (io : Readings) (s : State) : (sensed io s).gasLevel = io.gas := rfl

theorem sensed_frontDistance (io : Readings) (s : State) :
    (sensed io s).frontDistance = (io.echo1 : ℚ) * 0.034 / 2 := rfl

theorem sensed_sideDistance (io : Readings) (s : State) :
    (sensed io s).sideDistance = (io.echo2 : ℚ) * 0.034 / 2 := rfl

/-- The pins after `navigateCar` are the prior pins with the writes of its trace replayed. -/
theorem navigateCar_pins_replay (u : State) :
    (navigateCar u).pins = pinsAfter u.pins (events navigateCar u) := by
  rw [events_of_trace (navigateCar_trace u)]
  by_cases h1 : u.frontDistance < 20 <;> by_cases h2 : 20 < u.sideDistance <;>
    simp [pinsAfter, navigateCar, moveForward, moveBackward, turnRight, enter, emit,
      safeDistance, h1, h2, serialPrintln, digitalWrite, delay]

theorem stopCar_channels (u : State) :
    leftChannel (stopCar u) = off ∧ rightChannel (stopCar u) = off := by
  simp [leftChannel, rightChannel, off, stopCar, enter, emit, serialPrintln, digitalWrite,
    Function.update, leftMotorPin1, leftMotorPin2, rightMotorPin1, rightMotorPin2]

theorem navigateCar_channels (u : State) :
    leftChannel (navigateCar u) = forward ∧
    rightChannel (navigateCar u) = if u.frontDistance < 20 then reverse else forward := by
  by_cases h1 : u.frontDistance < 20 <;> by_cases h2 : 20 < u.sideDistance <;>
    simp [leftChannel, rightChannel, forward, reverse, navigateCar, moveForward, moveBackward,
      turnRight, enter, emit, safeDistance, h1, h2, serialPrintln, digitalWrite, delay,
      Function.update, leftMotorPin1, leftMotorPin2, rightMotorPin1, rightMotorPin2]

theorem delay_channels (ms : Nat) (u : State) :
    leftChannel (delay ms u) = leftChannel u ∧ rightChannel (delay ms u) = rightChannel u :=
  ⟨rfl, rfl⟩

theorem loop_channels (io : Readings) (s : State) :
    leftChannel (loop io s) =
      (if 50 < (sensed io s).temperature ∨ 400 < (sensed io s).gasLevel then off else forward) ∧
    rightChannel (loop io s) =
      (if 50 < (sensed io s).temperature ∨ 400 < (sensed io s).gasLevel then off
        else if (sensed io s).frontDistance < 20 then reverse else forward) := by
  have hg := checkHazards_globals (sensed io s)
  have hs := stopCar_channels (checkHazards (sensed io s)).2
  have hn := navigateCar_channels (checkHazards (sensed io s)).2
  rw [hg.1] at hn
  rw [loop_eq, checkHazards_fst, (delay_channels _ _).1, (delay_channels _ _).2]
  by_cases h : 50 < (sensed io s).temperature ∨ 400 < (sensed io s).gasLevel
  · have hb : (decide (50 < (sensed io s).temperature) || decide (400 < (sensed io s).gasLevel))
        = true := by simpa using h
    rw [hb, if_pos h, if_pos h]
    exact hs
  · have hb : (decide (50 < (sensed io s).temperature) || decide (400 < (sensed io s).gasLevel))
        = false := by simpa using h
    rw [hb, if_neg h, if_neg h]
    exact hn

theorem activateWaterSpray_trace (u : State) :
    (activateWaterSpray u).trace = u.trace ++
      [Event.call Fn.activateWaterSpray, Event.println "Activating water spray system",
       Event.digitalWrite waterPumpPin HIGH, Event.delay 2000,
       Event.digitalWrite waterPumpPin LOW] := by
  simp [activateWaterSpray, enter, emit, serialPrintln, digitalWrite, delay]

theorem checkHazards_pump (t : State) :
    (checkHazards t).2.pins waterPumpPin =
      if 50 < t.temperature then LOW else t.pins waterPumpPin := by
  by_cases h1 : 50 < t.temperature <;> by_cases h2 : 400 < t.gasLevel <;>
    simp [checkHazards, enter, emit, maxTemperature_eq, gasThreshold, h1, h2, activateWaterSpray,
      serialPrintln, digitalWrite, delay, Function.update]

theorem stopCar_pins (u : State) (pin : Nat) (h : isMotorPin pin = false) :
    (stopCar u).pins pin = u.pins pin := by
  simp only [isMotorPin, Bool.or_eq_false_iff, beq_eq_false_iff_ne] at h
  simp [stopCar, enter, emit, serialPrintln, digitalWrite, Function.update, h]

theorem navigateCar_pins (u : State) (pin : Nat) (h : isMotorPin pin = false) :
    (navigateCar u).pins pin = u.pins pin := by
  simp only [isMotorPin, Bool.or_eq_false_iff, beq_eq_false_iff_ne] at h
  by_cases h1 : u.frontDistance < 20 <;> by_cases h2 : 20 < u.sideDistance <;>
    simp [navigateCar, moveForward, moveBackward, turnRight, enter, emit, safeDistance, h1, h2,
      serialPrintln, digitalWrite, delay, Function.update, h]

theorem sensed_pwm (io : Readings) (s : State) : (sensed io s).pwm = s.pwm := rfl

theorem stopCar_pwm (u : State) : (stopCar u).pwm = u.pwm := rfl

theorem navigateCar_pwm (u : State) : (navigateCar u).pwm = u.pwm := by
  by_cases h1 : u.frontDistance < 20 <;> by_cases h2 : 20 < u.sideDistance <;>
    simp [navigateCar, moveForward, moveBackward, turnRight, enter, emit, safeDistance, h1, h2,
      serialPrintln, digitalWrite, delay]

theorem loop_pwm (io : Readings) (s : State) : (loop io s).pwm = s.pwm := by
  rw [loop_eq]
  have hg := (checkHazards_globals (sensed io s)).2.2.2.2
  cases (checkHazards (sensed io s)).1
  · simp [delay, emit, navigateCar_pwm, hg, sensed_pwm]
  · simp [delay, emit, stopCar_pwm, hg, sensed_pwm]

/-- A pin that is neither a trigger pin, a motor pin nor the pump pin keeps its level in an
iteration of `loop`; the pump pin ends LOW after a spray and keeps its level otherwise. -/
theorem loop_pins_other (io : Readings) (s : State) (pin : Nat) (h1 : pin ≠ trigPin1)
    (h2 : pin ≠ trigPin2) (h3 : isMotorPin pin = false) :
    (loop io s).pins pin =
      if pin = waterPumpPin ∧ 50 < (sensed io s).temperature then LOW else s.pins pin := by
  rw [loop_eq]
  have hp := checkHazards_pump (sensed io s)
  have hq := checkHazards_pins (sensed io s) pin
  have hs := sensed_pins io s pin h1 h2
  have key : (checkHazards (sensed io s)).2.pins pin =
      if pin = waterPumpPin ∧ 50 < (sensed io s).temperature then LOW else s.pins pin := by
    by_cases hpin : pin = waterPumpPin
    · subst hpin
      rw [hp, ← hs]
      by_cases hot : 50 < (sensed io s).temperature <;> simp [hot]
    · rw [hq hpin, hs]
      simp [hpin]
  cases (checkHazards (sensed io s)).1
  · simpa [delay, emit, navigateCar_pins _ pin h3] using key
  · simpa [delay, emit, stopCar_pins _ pin h3] using key

theorem sensed_pins_eq (io : Readings) (s : State) :
    (sensed io s).pins =
      Function.update (Function.update (Function.update (Function.update (Function.update
        (Function.update s.pins trigPin1 LOW) trigPin1 HIGH) trigPin1 LOW)
        trigPin2 LOW) trigPin2 HIGH) trigPin2 LOW := rfl

theorem checkHazards_pins_eq (t : State) :
    (checkHazards t).2.pins =
      if 50 < t.temperature then
        Function.update (Function.update t.pins waterPumpPin HIGH) waterPumpPin LOW
      else t.pins := by
  by_cases h1 : 50 < t.temperature <;> by_cases h2 : 400 < t.gasLevel <;>
    simp [checkHazards, enter, emit, maxTemperature_eq, gasThreshold, h1, h2, activateWaterSpray,
      serialPrintln, digitalWrite, delay]

/-- The pins after an iteration of `loop` are the prior pins with the writes of its trace
replayed. -/
theorem loop_pins_replay (io : Readings) (s : State) :
    (loop io s).pins = pinsAfter s.pins (events (loop io) s) := by
  rw [events_loop, loop_eq, checkHazards_fst]
  have hg := checkHazards_globals (sensed io s)
  by_cases h1 : 50 < (sensed io s).temperature <;> by_cases h2 : 400 < (sensed io s).gasLevel <;>
    by_cases h3 : (sensed io s).frontDistance < 20 <;>
    by_cases h4 : 20 < (sensed io s).sideDistance <;>
    simp [h1, h2, h3, h4, hg, pinsAfter, delay, emit, enter, stopCar, navigateCar, moveForward,
      moveBackward, turnRight, serialPrintln, digitalWrite, safeDistance, checkHazards_pins_eq,
      sensed_pins_eq]

theorem navigateCar_globals (u : State) :
    (navigateCar u).frontDistance = u.frontDistance ∧
    (navigateCar u).sideDistance = u.sideDistance ∧
    (navigateCar u).temperature = u.temperature ∧
    (navigateCar u).gasLevel = u.gasLevel := by
  by_cases h1 : u.frontDistance < 20 <;> by_cases h2 : 20 < u.sideDistance <;>
    simp [navigateCar, moveForward, moveBackward, turnRight, enter, emit, safeDistance, h1, h2,
      serialPrintln, digitalWrite, delay]

/-- The sensor globals after an iteration of `loop` are those of the snapshot read in it. -/
theorem loop_globals (io : Readings) (s : State) :
    (loop io s).frontDistance = (sensed io s).frontDistance ∧
    (loop io s).sideDistance = (sensed io s).sideDistance ∧
    (loop io s).temperature = (sensed io s).temperature ∧
    (loop io s).gasLevel = (sensed io s).gasLevel := by
  rw [loop_eq]
  have hg := checkHazards_globals (sensed io s)
  have hn := navigateCar_globals (checkHazards (sensed io s)).2
  cases (checkHazards (sensed io s)).1
  · simp [delay, emit, hn, hg]
  · simp [delay, emit, stopCar, enter, serialPrintln, digitalWrite, hg]

/-! ## Hazard evaluation -/

/-- C1: `checkHazards` returns true exactly when `temperature > 50.0` or `gasLevel > 400`;
both comparisons are strict, so at exactly 50.0 degrees and gas level 400 it returns
false. -/
theorem checkHazards_true_iff :
    (∀ s : State, (checkHazards s).1 = true ↔ (s.temperature > 50.0 ∨ s.gasLevel > 400)) ∧
    (∀ s : State, (checkHazards { s with temperature := 50.0, gasLevel := 400 }).1 = false) := by
  constructor
  · intro s
    rw [checkHazards_fst]
    norm_num
  · intro s
    rw [checkHazards_fst]
    norm_num

/-- C2: when `checkHazards` returns true for the snapshot read in an iteration of `loop`,
the only actuator function invoked in the iteration is `stopCar`, the only writes to the
motor pins are its four LOW writes, and both channels end off, whatever the two
distances are. -/
theorem loop_hazard_stops (io : Readings) (s : State)
    (h : (checkHazards (sensed io s)).1 = true) :
    movementCalls (events (loop io) s) = [Fn.stopCar] ∧
    motorWrites (events (loop io) s) =
      [Event.digitalWrite leftMotorPin1 LOW, Event.digitalWrite leftMotorPin2 LOW,
       Event.digitalWrite rightMotorPin1 LOW, Event.digitalWrite rightMotorPin2 LOW] ∧
    leftChannel (loop io s) = off ∧ rightChannel (loop io s) = off := by
  rw [checkHazards_fst] at h
  have h' : 50 < (sensed io s).temperature ∨ 400 < (sensed io s).gasLevel := by simpa using h
  have hc := loop_channels io s
  rw [if_pos h', if_pos h'] at hc
  refine ⟨?_, ?_, hc.1, hc.2⟩
  · rw [events_loop, if_pos h']
    by_cases h1 : 50 < (sensed io s).temperature <;>
      by_cases h2 : 400 < (sensed io s).gasLevel <;>
      simp [h1, h2, movementCalls, Fn.isMovement]
  · rw [events_loop, if_pos h']
    by_cases h1 : 50 < (sensed io s).temperature <;>
      by_cases h2 : 400 < (sensed io s).gasLevel <;>
      simp [h1, h2, motorWrites, isMotorPin, leftMotorPin1, leftMotorPin2, rightMotorPin1,
        rightMotorPin2, waterPumpPin, trigPin1, trigPin2]

/-- Witness for C2: a hot snapshot (raw temperature reading 123, about 60 degrees) with a
clear front (about 30 cm) and a blocked side (about 5 cm). -/
theorem loop_hazard_stops_witness :
    (checkHazards (sensed { echo1 := 1765, echo2 := 294, heat := 123, gas := 100 } powerOn)).1
      = true ∧
    movementCalls (events (loop { echo1 := 1765, echo2 := 294, heat := 123, gas := 100 }) powerOn)
      = [Fn.stopCar] :=
  have h : (checkHazards
      (sensed { echo1 := 1765, echo2 := 294, heat := 123, gas := 100 } powerOn)).1 = true := by
    rw [checkHazards_fst]
    norm_num [sensed_temperature]
  ⟨h, (loop_hazard_stops _ powerOn h).1⟩

/-! ## Navigation -/

/-- C3: with `frontDistance >= 20` (20 included) `navigateCar` performs exactly the effects
of one `moveForward`: the single directive Forward and no delay, whatever `sideDistance`
is. -/
theorem navigateCar_clear_forward (s : State) (h : s.frontDistance ≥ 20) :
    events navigateCar s =
      [Event.call Fn.navigateCar, Event.call Fn.moveForward,
       Event.digitalWrite leftMotorPin1 HIGH, Event.digitalWrite leftMotorPin2 LOW,
       Event.digitalWrite rightMotorPin1 HIGH, Event.digitalWrite rightMotorPin2 LOW,
       Event.println "Moving forward"] ∧
    movementCalls (events navigateCar s) = [Fn.moveForward] ∧
    holds (events navigateCar s) = [] := by
  have h' : ¬ s.frontDistance < 20 := not_lt.mpr h
  rw [events_of_trace (navigateCar_trace s), if_neg h']
  simp [movementCalls, holds, Fn.isMovement]

/-- Witness for C3: the boundary `frontDistance = 20` with a blocked side. -/
theorem navigateCar_clear_forward_witness :
    movementCalls (events navigateCar { powerOn with frontDistance := 20, sideDistance := 5 })
      = [Fn.moveForward] :=
  (navigateCar_clear_forward { powerOn with frontDistance := 20, sideDistance := 5 }
    (by norm_num)).2.1

/-- C4: with `frontDistance < 20` and `sideDistance > 20` `navigateCar` performs exactly the
effects of one `turnRight`: the single directive TurnRight, no Backward step and no
delay. -/
theorem navigateCar_side_free_turnRight (s : State) (h1 : s.frontDistance < 20)
    (h2 : s.sideDistance > 20) :
    events navigateCar s =
      [Event.call Fn.navigateCar, Event.call Fn.turnRight,
       Event.digitalWrite leftMotorPin1 HIGH, Event.digitalWrite leftMotorPin2 LOW,
       Event.digitalWrite rightMotorPin1 LOW, Event.digitalWrite rightMotorPin2 HIGH,
       Event.println "Turning right"] ∧
    movementCalls (events navigateCar s) = [Fn.turnRight] ∧
    holds (events navigateCar s) = [] := by
  have h2' : 20 < s.sideDistance := h2
  rw [events_of_trace (navigateCar_trace s), if_pos h1, if_pos h2']
  simp [movementCalls, holds, Fn.isMovement]

/-- Witness for C4: front obstacle at 5 cm, side free at 30 cm. -/
theorem navigateCar_side_free_turnRight_witness :
    movementCalls (events navigateCar { powerOn with frontDistance := 5, sideDistance := 30 })
      = [Fn.turnRight] :=
  (navigateCar_side_free_turnRight { powerOn with frontDistance := 5, sideDistance := 30 }
    (by norm_num) (by norm_num)).2.1

/-- C5: with `frontDistance < 20` and `sideDistance <= 20` (20 included) `navigateCar`
performs exactly `moveBackward`, a 500 ms delay, `turnRight`, a 700 ms delay, in that
order, and nothing else. -/
theorem navigateCar_blocked_backs_up (s : State) (h1 : s.frontDistance < 20)
    (h2 : s.sideDistance ≤ 20) :
    events navigateCar s =
      [Event.call Fn.navigateCar, Event.call Fn.moveBackward,
       Event.digitalWrite leftMotorPin1 LOW, Event.digitalWrite leftMotorPin2 HIGH,
       Event.digitalWrite rightMotorPin1 LOW, Event.digitalWrite rightMotorPin2 HIGH,
       Event.println "Moving backward", Event.delay 500,
       Event.call Fn.turnRight,
       Event.digitalWrite leftMotorPin1 HIGH, Event.digitalWrite leftMotorPin2 LOW,
       Event.digitalWrite rightMotorPin1 LOW, Event.digitalWrite rightMotorPin2 HIGH,
       Event.println "Turning right", Event.delay 700] ∧
    movementCalls (events navigateCar s) = [Fn.moveBackward, Fn.turnRight] ∧
    holds (events navigateCar s) = [500, 700] := by
  have h2' : ¬ 20 < s.sideDistance := not_lt.mpr h2
  rw [events_of_trace (navigateCar_trace s), if_pos h1, if_neg h2']
  simp [movementCalls, holds, Fn.isMovement]

/-- Witness for C5: front obstacle at 5 cm, side at the boundary 20 cm. -/
theorem navigateCar_blocked_backs_up_witness :
    movementCalls (events navigateCar { powerOn with frontDistance := 5, sideDistance := 20 })
      = [Fn.moveBackward, Fn.turnRight] ∧
    holds (events navigateCar { powerOn with frontDistance := 5, sideDistance := 20 })
      = [500, 700] :=
  (navigateCar_blocked_backs_up { powerOn with frontDistance := 5, sideDistance := 20 }
    (by norm_num) (by norm_num)).2

/-- C6: neither `navigateCar` nor an iteration of `loop` invokes `turnLeft` or logs its
line, neither leaves the motor pins in the TurnLeft pattern (left reverse, right forward),
and the patterns held during the delays of `navigateCar` are not the TurnLeft pattern
either. -/
theorem turnLeft_never_issued (io : Readings) (s : State) :
    Event.call Fn.turnLeft ∉ events navigateCar s ∧
    Event.call Fn.turnLeft ∉ events (loop io) s ∧
    Event.println "Turning left" ∉ events navigateCar s ∧
    Event.println "Turning left" ∉ events (loop io) s ∧
    ¬ (leftChannel (navigateCar s) = reverse ∧ rightChannel (navigateCar s) = forward) ∧
    ¬ (leftChannel (loop io s) = reverse ∧ rightChannel (loop io s) = forward) ∧
    (∀ p ∈ heldPatterns s.pins (events navigateCar s), p.2 ≠ (reverse, forward)) := by
  have hn := navigateCar_channels s
  have hl := loop_channels io s
  refine ⟨?_, ?_, ?_, ?_, ?_, ?_, ?_⟩
  · rw [events_of_trace (navigateCar_trace s)]
    split_ifs <;> simp
  · rw [events_loop]
    split_ifs <;> simp
  · rw [events_of_trace (navigateCar_trace s)]
    split_ifs <;> simp
  · rw [events_loop]
    split_ifs <;> simp
  · rw [hn.1]
    simp [forward, reverse]
  · rw [hl.1]
    split_ifs <;> simp [forward, reverse, off]
  · rw [events_of_trace (navigateCar_trace s)]
    split_ifs <;>
      simp [heldPatterns, motorPattern, Function.update, forward, reverse, leftMotorPin1,
        leftMotorPin2, rightMotorPin1, rightMotorPin2]

/-- C7: `checkHazards` invokes `activateWaterSpray`, and writes the pump pin, exactly when
`temperature > 50.0`; with `gasLevel > 400` and `temperature <= 50.0` it reports the
hazard and never writes the pump pin. -/
theorem spray_iff_hot (s : State) :
    (Event.call Fn.activateWaterSpray ∈ events (fun t => (checkHazards t).2) s ↔
      s.temperature > 50.0) ∧
    (pumpWrites (events (fun t => (checkHazards t).2) s) =
      if s.temperature > 50.0 then
        [Event.digitalWrite waterPumpPin HIGH, Event.digitalWrite waterPumpPin LOW]
      else []) ∧
    (s.gasLevel > 400 ∧ s.temperature ≤ 50.0 →
      (checkHazards s).1 = true ∧ pumpWrites (events (fun t => (checkHazards t).2) s) = []) := by
  have he : events (fun t => (checkHazards t).2) s = _ := events_of_trace (checkHazards_trace s)
  have h50 : (50.0 : ℚ) = 50 := by norm_num
  rw [he, checkHazards_fst, h50]
  refine ⟨?_, ?_, ?_⟩
  · by_cases h1 : 50 < s.temperature <;> by_cases h2 : 400 < s.gasLevel <;> simp [h1, h2]
  · by_cases h1 : 50 < s.temperature <;> by_cases h2 : 400 < s.gasLevel <;>
      simp [h1, h2, pumpWrites, waterPumpPin]
  · rintro ⟨h2, h3⟩
    have h1 : ¬ 50 < s.temperature := not_lt.mpr h3
    simp [h1, h2, pumpWrites, waterPumpPin]

/-- Witness for C7: the gas-only scenario (temperature 25, gas level 500). -/
theorem spray_iff_hot_witness :
    (checkHazards { powerOn with temperature := 25, gasLevel := 500 }).1 = true ∧
    pumpWrites (events (fun t => (checkHazards t).2)
      { powerOn with temperature := 25, gasLevel := 500 }) = [] :=
  (spray_iff_hot { powerOn with temperature := 25, gasLevel := 500 }).2.2
    ⟨by norm_num, by norm_num⟩

/-! ## Actuators -/

/-- C8: from every prior state each actuator function leaves the (left, right) channels as
the directive table says: `moveForward` (forward, forward), `moveBackward`
(reverse, reverse), `turnRight` (forward, reverse), `turnLeft` (reverse, forward),
`stopCar` (off, off), where forward = (HIGH, LOW), reverse = (LOW, HIGH),
off = (LOW, LOW). -/
theorem actuators_set_channels (s : State) :
    forward = (HIGH, LOW) ∧ reverse = (LOW, HIGH) ∧ off = (LOW, LOW) ∧
    (leftChannel (moveForward s) = forward ∧ rightChannel (moveForward s) = forward) ∧
    (leftChannel (moveBackward s) = reverse ∧ rightChannel (moveBackward s) = reverse) ∧
    (leftChannel (turnRight s) = forward ∧ rightChannel (turnRight s) = reverse) ∧
    (leftChannel (turnLeft s) = reverse ∧ rightChannel (turnLeft s) = forward) ∧
    (leftChannel (stopCar s) = off ∧ rightChannel (stopCar s) = off) := by
  simp [leftChannel, rightChannel, forward, reverse, off, moveForward, moveBackward, turnRight,
    turnLeft, stopCar, enter, emit, serialPrintln, digitalWrite, Function.update,
    leftMotorPin1, leftMotorPin2, rightMotorPin1, rightMotorPin2]

/-! ## One directive per cycle -/

/-- C9, as stated, fails: with no hazard, a front obstacle (about 5 cm) and a blocked
side (about 5 cm) one iteration of `loop` invokes two actuator functions, `moveBackward`
and then `turnRight`. -/
theorem loop_two_directives :
    movementCalls (events (loop { echo1 := 294, echo2 := 294, heat := 51, gas := 100 }) powerOn)
      = [Fn.moveBackward, Fn.turnRight] ∧
    ¬ ∃ f, movementCalls
      (events (loop { echo1 := 294, echo2 := 294, heat := 51, gas := 100 }) powerOn) = [f] := by
  have h : movementCalls
      (events (loop { echo1 := 294, echo2 := 294, heat := 51, gas := 100 }) powerOn)
      = [Fn.moveBackward, Fn.turnRight] := by
    rw [events_loop]
    norm_num [sensed_temperature, sensed_gasLevel, sensed_frontDistance, sensed_sideDistance]
    simp [movementCalls, Fn.isMovement]
  refine ⟨h, ?_⟩
  rw [h]
  simp

/-- C9, amended: one iteration of `loop` invokes exactly one actuator function, once,
except when there is no hazard, `frontDistance < 20` and `sideDistance <= 20`; then it
invokes exactly two, `moveBackward` followed by `turnRight`. -/
theorem loop_directives (io : Readings) (s : State) :
    if (checkHazards (sensed io s)).1 = false ∧ (sensed io s).frontDistance < 20 ∧
        (sensed io s).sideDistance ≤ 20 then
      movementCalls (events (loop io) s) = [Fn.moveBackward, Fn.turnRight]
    else
      ∃ f, movementCalls (events (loop io) s) = [f] := by
  rw [events_loop, checkHazards_fst]
  by_cases h1 : 50 < (sensed io s).temperature <;>
    by_cases h2 : 400 < (sensed io s).gasLevel <;>
    by_cases h3 : (sensed io s).frontDistance < 20 <;>
    by_cases h4 : 20 < (sensed io s).sideDistance <;>
    simp [h1, h2, h3, h4, movementCalls, Fn.isMovement, not_le.mpr, le_of_not_lt]

/-! ## Echo timeout -/

/-- C10, as stated, fails: when the front echo times out (`pulseIn` returns 0) and the side
is free (about 34 cm), with no hazard, the front distance reads 0 and `navigateCar` does
not issue Forward; it issues TurnRight. -/
theorem echo_timeout_not_forward :
    (sensed { echo1 := 0, echo2 := 2000, heat := 51, gas := 100 } powerOn).frontDistance = 0 ∧
    (checkHazards (sensed { echo1 := 0, echo2 := 2000, heat := 51, gas := 100 } powerOn)).1
      = false ∧
    movementCalls (events navigateCar
      (checkHazards (sensed { echo1 := 0, echo2 := 2000, heat := 51, gas := 100 } powerOn)).2)
      = [Fn.turnRight] ∧
    Event.call Fn.moveForward ∉ events navigateCar
      (checkHazards (sensed { echo1 := 0, echo2 := 2000, heat := 51, gas := 100 } powerOn)).2 := by
  have hg := checkHazards_globals
    (sensed { echo1 := 0, echo2 := 2000, heat := 51, gas := 100 } powerOn)
  refine ⟨?_, ?_, ?_, ?_⟩
  · norm_num [sensed_frontDistance]
  · rw [checkHazards_fst]
    norm_num [sensed_temperature, sensed_gasLevel]
  · rw [events_of_trace (navigateCar_trace _), hg.1, hg.2.1]
    norm_num [sensed_frontDistance, sensed_sideDistance]
    simp [movementCalls, Fn.isMovement]
  · rw [events_of_trace (navigateCar_trace _), hg.1, hg.2.1]
    norm_num [sensed_frontDistance, sensed_sideDistance]
    simp

/-- C10, amended: when the front echo times out (`pulseIn` returns 0) the front distance
reads 0, and with no hazard `navigateCar` treats the 0 reading as an obstacle ahead: it
never issues Forward; when `sideDistance > 20` it performs exactly one `turnRight` with no
delay, and otherwise exactly `moveBackward`, a 500 ms delay, `turnRight`, a 700 ms delay,
in that order. -/
theorem echo_timeout_is_obstacle (io : Readings) (s : State) (h0 : io.echo1 = 0)
    (hz : (checkHazards (sensed io s)).1 = false) :
    (sensed io s).frontDistance = 0 ∧
    Event.call Fn.moveForward ∉ events navigateCar (checkHazards (sensed io s)).2 ∧
    events navigateCar (checkHazards (sensed io s)).2 =
      (if (sensed io s).sideDistance > 20 then
        [Event.call Fn.navigateCar, Event.call Fn.turnRight,
         Event.digitalWrite leftMotorPin1 HIGH, Event.digitalWrite leftMotorPin2 LOW,
         Event.digitalWrite rightMotorPin1 LOW, Event.digitalWrite rightMotorPin2 HIGH,
         Event.println "Turning right"]
      else
        [Event.call Fn.navigateCar, Event.call Fn.moveBackward,
         Event.digitalWrite leftMotorPin1 LOW, Event.digitalWrite leftMotorPin2 HIGH,
         Event.digitalWrite rightMotorPin1 LOW, Event.digitalWrite rightMotorPin2 HIGH,
         Event.println "Moving backward", Event.delay 500,
         Event.call Fn.turnRight,
         Event.digitalWrite leftMotorPin1 HIGH, Event.digitalWrite leftMotorPin2 LOW,
         Event.digitalWrite rightMotorPin1 LOW, Event.digitalWrite rightMotorPin2 HIGH,
         Event.println "Turning right", Event.delay 700]) ∧
    movementCalls (events navigateCar (checkHazards (sensed io s)).2) =
      (if (sensed io s).sideDistance > 20 then [Fn.turnRight]
        else [Fn.moveBackward, Fn.turnRight]) ∧
    holds (events navigateCar (checkHazards (sensed io s)).2) =
      (if (sensed io s).sideDistance > 20 then [] else [500, 700]) ∧
    movementCalls (events (loop io) s) =
      (if (sensed io s).sideDistance > 20 then [Fn.turnRight]
        else [Fn.moveBackward, Fn.turnRight]) ∧
    holds (events (loop io) s) =
      (if (sensed io s).sideDistance > 20 then [100] else [500, 700, 100]) := by
  have hg := checkHazards_globals (sensed io s)
  have hf : (sensed io s).frontDistance = 0 := by
    rw [sensed_frontDistance, h0]
    norm_num
  have hlt : (sensed io s).frontDistance < 20 := by
    rw [hf]
    norm_num
  rw [checkHazards_fst] at hz
  have hz' : ¬ (50 < (sensed io s).temperature ∨ 400 < (sensed io s).gasLevel) := by
    simpa using hz
  have h1 : ¬ 50 < (sensed io s).temperature := fun h => hz' (Or.inl h)
  have h2 : ¬ 400 < (sensed io s).gasLevel := fun h => hz' (Or.inr h)
  refine ⟨hf, ?_, ?_, ?_, ?_, ?_, ?_⟩
  · rw [events_of_trace (navigateCar_trace _), hg.1, hg.2.1, if_pos hlt]
    split_ifs <;> simp
  · rw [events_of_trace (navigateCar_trace _), hg.1, hg.2.1, if_pos hlt]
    by_cases h4 : 20 < (sensed io s).sideDistance <;> simp [h4]
  · rw [events_of_trace (navigateCar_trace _), hg.1, hg.2.1, if_pos hlt]
    by_cases h4 : 20 < (sensed io s).sideDistance <;>
      simp [h4, movementCalls, Fn.isMovement]
  · rw [events_of_trace (navigateCar_trace _), hg.1, hg.2.1, if_pos hlt]
    by_cases h4 : 20 < (sensed io s).sideDistance <;> simp [h4, holds]
  · rw [events_loop, if_neg hz', if_pos hlt]
    by_cases h4 : 20 < (sensed io s).sideDistance <;>
      simp [h1, h2, h4, movementCalls, Fn.isMovement]
  · rw [events_loop, if_neg hz', if_pos hlt]
    by_cases h4 : 20 < (sensed io s).sideDistance <;> simp [h1, h2, h4, holds]

/-- Witness for the amended C10: a front echo timeout with a blocked side (about 5 cm) and
no hazard; `navigateCar` backs up for 500 ms and turns right for 700 ms. -/
theorem echo_timeout_is_obstacle_witness :
    (sensed { echo1 := 0, echo2 := 294, heat := 51, gas := 100 } powerOn).frontDistance = 0 ∧
    Event.call Fn.moveForward ∉ events navigateCar
      (checkHazards (sensed { echo1 := 0, echo2 := 294, heat := 51, gas := 100 } powerOn)).2 ∧
    movementCalls (events navigateCar
      (checkHazards (sensed { echo1 := 0, echo2 := 294, heat := 51, gas := 100 } powerOn)).2)
      = [Fn.moveBackward, Fn.turnRight] ∧
    holds (events navigateCar
      (checkHazards (sensed { echo1 := 0, echo2 := 294, heat := 51, gas := 100 } powerOn)).2)
      = [500, 700] := by
  have h := echo_timeout_is_obstacle { echo1 := 0, echo2 := 294, heat := 51, gas := 100 } powerOn
    rfl (by rw [checkHazards_fst]; norm_num [sensed_temperature, sensed_gasLevel])
  have hside : ¬ (sensed { echo1 := 0, echo2 := 294, heat := 51, gas := 100 }
      powerOn).sideDistance > 20 := by
    norm_num [sensed_sideDistance]
  refine ⟨h.1, h.2.1, ?_, ?_⟩
  · rw [h.2.2.2.1, if_neg hside]
  · rw [h.2.2.2.2.1, if_neg hside]

/-! ## Temperature conversion -/

/-- C11: `readTemperature` sets `temperature` to exactly `r * 500 / 1024` for every raw
reading `r` (in particular for every `r` in 0..1023); for `r = 102` this is 49.8046875,
which is within 0.01 of 49.8 and does not exceed `maxTemperature`. -/
theorem readTemperature_conversion (r : Int) (s : State) :
    (readTemperature r s).temperature = (r : ℚ) * 500 / 1024 ∧
    (readTemperature 102 s).temperature = 49.8046875 ∧
    |(readTemperature 102 s).temperature - 49.8| < 0.01 ∧
    ¬ (readTemperature 102 s).temperature > maxTemperature := by
  have h : ∀ q : Int, (readTemperature q s).temperature = (q : ℚ) * 500 / 1024 := by
    intro q
    show ((q : ℚ) * 5.0 * 100.0) / 1024.0 = (q : ℚ) * 500 / 1024
    norm_num
    ring
  refine ⟨h r, ?_, ?_, ?_⟩
  · rw [h]
    norm_num
  · rw [h, abs_lt]
    norm_num
  · rw [h, maxTemperature_eq]
    norm_num

/-! ## Order of the events of a cycle -/

/-- C12, as stated, fails: in the cycle with a clear front (about 34 cm) and no hazard the
readings line is logged before `checkHazards` and `moveForward` run, and the event
immediately before the 100 ms delay is the log line of `moveForward`, not the readings
line. -/
theorem readings_logged_before_directive :
    events (loop { echo1 := 2000, echo2 := 2000, heat := 51, gas := 100 }) powerOn =
      [Event.call Fn.loop, Event.call Fn.readUltrasonicSensors,
       Event.digitalWrite trigPin1 LOW, Event.delayMicroseconds 2,
       Event.digitalWrite trigPin1 HIGH, Event.delayMicroseconds 10,
       Event.digitalWrite trigPin1 LOW,
       Event.digitalWrite trigPin2 LOW, Event.delayMicroseconds 2,
       Event.digitalWrite trigPin2 HIGH, Event.delayMicroseconds 10,
       Event.digitalWrite trigPin2 LOW,
       Event.call Fn.readTemperature, Event.call Fn.readGasLevel,
       Event.call Fn.printSensorReadings,
       Event.print "Front Distance: ", Event.printFloat 34,
       Event.print " cm | Side Distance: ", Event.printFloat 34,
       Event.print " cm | Temperature: ", Event.printFloat (6375 / 256),
       Event.print " Â°C | Gas Level: ", Event.printlnInt 100,
       Event.call Fn.checkHazards,
       Event.call Fn.navigateCar, Event.call Fn.moveForward,
       Event.digitalWrite leftMotorPin1 HIGH, Event.digitalWrite leftMotorPin2 LOW,
       Event.digitalWrite rightMotorPin1 HIGH, Event.digitalWrite rightMotorPin2 LOW,
       Event.println "Moving forward",
       Event.delay 100] ∧
    ¬ ∃ pre, events (loop { echo1 := 2000, echo2 := 2000, heat := 51, gas := 100 }) powerOn =
      pre ++ [Event.printlnInt 100, Event.delay 100] := by
  have h : events (loop { echo1 := 2000, echo2 := 2000, heat := 51, gas := 100 }) powerOn =
      [Event.call Fn.loop, Event.call Fn.readUltrasonicSensors,
       Event.digitalWrite trigPin1 LOW, Event.delayMicroseconds 2,
       Event.digitalWrite trigPin1 HIGH, Event.delayMicroseconds 10,
       Event.digitalWrite trigPin1 LOW,
       Event.digitalWrite trigPin2 LOW, Event.delayMicroseconds 2,
       Event.digitalWrite trigPin2 HIGH, Event.delayMicroseconds 10,
       Event.digitalWrite trigPin2 LOW,
       Event.call Fn.readTemperature, Event.call Fn.readGasLevel,
       Event.call Fn.printSensorReadings,
       Event.print "Front Distance: ", Event.printFloat 34,
       Event.print " cm | Side Distance: ", Event.printFloat 34,
       Event.print " cm | Temperature: ", Event.printFloat (6375 / 256),
       Event.print " Â°C | Gas Level: ", Event.printlnInt 100,
       Event.call Fn.checkHazards,
       Event.call Fn.navigateCar, Event.call Fn.moveForward,
       Event.digitalWrite leftMotorPin1 HIGH, Event.digitalWrite leftMotorPin2 LOW,
       Event.digitalWrite rightMotorPin1 HIGH, Event.digitalWrite rightMotorPin2 LOW,
       Event.println "Moving forward",
       Event.delay 100] := by
    rw [events_loop]
    norm_num [sensed_temperature, sensed_gasLevel, sensed_frontDistance, sensed_sideDistance]
  refine ⟨h, ?_⟩
  rw [h]
  rintro ⟨pre, hpre⟩
  have hl := congrArg (fun l => (List.dropLast l).getLast?) hpre
  simp at hl

/-- C12, amended: in every iteration of `loop` the events occur in the order: read the
sensors, log the sensor readings, evaluate the hazard, apply Stop or the movement
directive(s), 100 ms pacing delay.  The readings line is emitted before `checkHazards`
runs, and the events immediately before the 100 ms delay are those of `stopCar` or
`navigateCar`. -/
theorem loop_event_order (io : Readings) (s : State) :
    events (loop io) s =
      events (sensed io) s ++
      events (fun t => (checkHazards t).2) (sensed io s) ++
      events (fun t => if (checkHazards (sensed io s)).1 then stopCar t else navigateCar t)
        (checkHazards (sensed io s)).2 ++
      [Event.delay 100] ∧
    events (sensed io) s =
      Event.call Fn.loop ::
      (events (readUltrasonicSensors io.echo1 io.echo2) (enter Fn.loop s) ++
       events (readTemperature io.heat)
        (readUltrasonicSensors io.echo1 io.echo2 (enter Fn.loop s)) ++
       events (readGasLevel io.gas)
        (readTemperature io.heat (readUltrasonicSensors io.echo1 io.echo2 (enter Fn.loop s))) ++
       events printSensorReadings
        (readGasLevel io.gas (readTemperature io.heat
          (readUltrasonicSensors io.echo1 io.echo2 (enter Fn.loop s))))) ∧
    (∀ u : State, events printSensorReadings u =
      [Event.call Fn.printSensorReadings,
       Event.print "Front Distance: ", Event.printFloat u.frontDistance,
       Event.print " cm | Side Distance: ", Event.printFloat u.sideDistance,
       Event.print " cm | Temperature: ", Event.printFloat u.temperature,
       Event.print " Â°C | Gas Level: ", Event.printlnInt u.gasLevel]) := by
  have hs : events (sensed io) s = _ := events_of_trace (sensed_trace io s)
  have hc : events (fun t => (checkHazards t).2) (sensed io s) = _ :=
    events_of_trace (checkHazards_trace (sensed io s))
  have hg := checkHazards_globals (sensed io s)
  refine ⟨?_, ?_, ?_⟩
  · rw [events_loop, hs, hc, checkHazards_fst]
    by_cases h1 : 50 < (sensed io s).temperature <;>
      by_cases h2 : 400 < (sensed io s).gasLevel <;>
      by_cases h3 : (sensed io s).frontDistance < 20 <;>
      by_cases h4 : 20 < (sensed io s).sideDistance <;>
      simp [h1, h2, h3, h4, hg, events, stopCar_trace, navigateCar_trace] <;>
      exact ⟨rfl, rfl, rfl, rfl⟩
  · rw [hs]
    simp [events, readUltrasonicSensors, readTemperature, readGasLevel, printSensorReadings,
      enter, emit, serialPrint, digitalWrite, delayMicroseconds]
  · intro u
    simp [events, printSensorReadings, enter, emit, serialPrint]

/-! ## Water spray -/

/-- C13: from every prior state `activateWaterSpray` performs exactly: pump pin HIGH,
2000 ms delay, pump pin LOW (after logging its line), so the pump pin is LOW when it
returns; and if the pump pin is LOW before an iteration of `loop` it is LOW after it. -/
theorem pump_off_after_spray (io : Readings) (s : State) :
    events activateWaterSpray s =
      [Event.call Fn.activateWaterSpray, Event.println "Activating water spray system",
       Event.digitalWrite waterPumpPin HIGH, Event.delay 2000,
       Event.digitalWrite waterPumpPin LOW] ∧
    actuation (events activateWaterSpray s) =
      [Event.digitalWrite waterPumpPin HIGH, Event.delay 2000,
       Event.digitalWrite waterPumpPin LOW] ∧
    (activateWaterSpray s).pins waterPumpPin = LOW ∧
    (loop io s).pins waterPumpPin =
      (if 50 < (sensed io s).temperature then LOW else s.pins waterPumpPin) ∧
    (s.pins waterPumpPin = LOW → (loop io s).pins waterPumpPin = LOW) := by
  have hl := loop_pins_other io s waterPumpPin (by decide) (by decide) (by decide)
  refine ⟨events_of_trace (activateWaterSpray_trace s), ?_, ?_, ?_, ?_⟩
  · rw [events_of_trace (activateWaterSpray_trace s)]
    simp [actuation]
  · simp [activateWaterSpray, enter, emit, serialPrintln, digitalWrite, delay]
  · rw [hl]
    simp
  · intro hoff
    rw [hl, hoff]
    simp

/-- Witness for C13: a hot cycle (raw temperature reading 123) started with the pump
off. -/
theorem pump_off_after_spray_witness :
    powerOn.pins waterPumpPin = LOW ∧
    (loop { echo1 := 1765, echo2 := 294, heat := 123, gas := 100 } powerOn).pins waterPumpPin
      = LOW :=
  ⟨rfl, (pump_off_after_spray { echo1 := 1765, echo2 := 294, heat := 123, gas := 100 }
    powerOn).2.2.2.2 rfl⟩

/-! ## No retained history -/

/-- C14: two runs of one iteration of `loop` that receive the same four readings emit the
same events and end in the same motor-pin state and the same sensor globals, whatever the
globals, pins and PWM duties they start from. -/
theorem loop_depends_on_readings_only (io : Readings) (s1 s2 : State) :
    events (loop io) s1 = events (loop io) s2 ∧
    leftChannel (loop io s1) = leftChannel (loop io s2) ∧
    rightChannel (loop io s1) = rightChannel (loop io s2) ∧
    (loop io s1).frontDistance = (loop io s2).frontDistance ∧
    (loop io s1).sideDistance = (loop io s2).sideDistance ∧
    (loop io s1).temperature = (loop io s2).temperature ∧
    (loop io s1).gasLevel = (loop io s2).gasLevel := by
  have ht : (sensed io s1).temperature = (sensed io s2).temperature := rfl
  have hgas : (sensed io s1).gasLevel = (sensed io s2).gasLevel := rfl
  have hf : (sensed io s1).frontDistance = (sensed io s2).frontDistance := rfl
  have hsd : (sensed io s1).sideDistance = (sensed io s2).sideDistance := rfl
  have hc1 := loop_channels io s1
  have hc2 := loop_channels io s2
  have hg1 := loop_globals io s1
  have hg2 := loop_globals io s2
  refine ⟨?_, ?_, ?_, ?_, ?_, ?_, ?_⟩
  · rw [events_loop, events_loop, ht, hgas, hf, hsd]
  · rw [hc1.1, hc2.1, ht, hgas]
  · rw [hc1.2, hc2.2, ht, hgas, hf]
  · rw [hg1.1, hg2.1, hf]
  · rw [hg1.2.1, hg2.2.1, hsd]
  · rw [hg1.2.2.1, hg2.2.2.1, ht]
  · rw [hg1.2.2.2, hg2.2.2.2, hgas]

/-! ## Motor speed -/

/-- C15: `setup` writes the duty value 200 to both enable pins, and an iteration of `loop`
leaves the PWM duties unchanged: no event of the iteration is a `pinMode`,
`digitalWrite` or `analogWrite` of `motorEnableA` or `motorEnableB`. -/
theorem motor_speed_fixed (io : Readings) (s : State) :
    (setup s).pwm motorEnableA = 200 ∧ (setup s).pwm motorEnableB = 200 ∧
    actuation (events setup s) =
      [Event.analogWrite motorEnableA 200, Event.analogWrite motorEnableB 200] ∧
    (loop io s).pwm = s.pwm ∧
    (loop io (setup s)).pwm motorEnableA = 200 ∧ (loop io (setup s)).pwm motorEnableB = 200 ∧
    (events (loop io) s).filter
      (fun e => touchesPin motorEnableA e || touchesPin motorEnableB e) = [] := by
  have hA : (setup s).pwm motorEnableA = 200 := by
    simp [setup, enter, emit, pinMode, analogWrite, serialPrintln, Function.update,
      motorEnableA, motorEnableB]
  have hB : (setup s).pwm motorEnableB = 200 := by
    simp [setup, enter, emit, pinMode, analogWrite, serialPrintln, Function.update,
      motorEnableA, motorEnableB]
  refine ⟨hA, hB, ?_, loop_pwm io s, ?_, ?_, ?_⟩
  · simp [events, actuation, setup, enter, emit, pinMode, analogWrite, serialPrintln]
  · rw [loop_pwm, hA]
  · rw [loop_pwm, hB]
  · rw [events_loop]
    split_ifs <;>
      simp [touchesPin, motorEnableA, motorEnableB, trigPin1, trigPin2, leftMotorPin1,
        leftMotorPin2, rightMotorPin1, rightMotorPin2, waterPumpPin]

/-! ## Motor pins during the spray -/

/-- C16: in a cycle with `temperature > 50.0`, `checkHazards` writes no motor direction
pin and leaves both channels as the prior state had them; the pattern held during the
2000 ms spray is the prior pattern; and all motor-pin writes of the cycle, the four of
`stopCar`, come after the pump pin has been written LOW. -/
theorem motors_untouched_during_spray (io : Readings) (s : State)
    (hot : (sensed io s).temperature > 50.0) :
    motorWrites (events (fun t => (checkHazards t).2) (sensed io s)) = [] ∧
    leftChannel (checkHazards (sensed io s)).2 = leftChannel s ∧
    rightChannel (checkHazards (sensed io s)).2 = rightChannel s ∧
    heldPatterns s.pins (events (loop io) s) =
      [(2000, motorPattern s.pins), (100, (off, off))] ∧
    ∃ pre mid, events (loop io) s =
        pre ++ Event.digitalWrite waterPumpPin LOW :: mid ++
          [Event.call Fn.stopCar,
           Event.digitalWrite leftMotorPin1 LOW, Event.digitalWrite leftMotorPin2 LOW,
           Event.digitalWrite rightMotorPin1 LOW, Event.digitalWrite rightMotorPin2 LOW,
           Event.println "Car stopped", Event.delay 100] ∧
      Event.delay 2000 ∈ pre ∧ motorWrites pre = [] ∧ motorWrites mid = [] := by
  have h1 : 50 < (sensed io s).temperature := by
    have h50 : (50.0 : ℚ) = 50 := by norm_num
    rw [← h50]
    exact hot
  have hp : ∀ pin, isMotorPin pin = true → (checkHazards (sensed io s)).2.pins pin = s.pins pin := by
    intro pin hpin
    simp only [isMotorPin, Bool.or_eq_true, beq_iff_eq] at hpin
    rw [checkHazards_pins (sensed io s) pin, sensed_pins io s pin]
    all_goals
      rcases hpin with ((h | h) | h) | h <;> rw [h] <;> decide
  refine ⟨?_, ?_, ?_, ?_, ?_⟩
  · rw [events_of_trace (checkHazards_trace (sensed io s)), if_pos h1]
    split_ifs <;>
      simp [motorWrites, isMotorPin, leftMotorPin1, leftMotorPin2, rightMotorPin1,
        rightMotorPin2, waterPumpPin]
  · simp only [leftChannel]
    rw [hp leftMotorPin1 (by decide), hp leftMotorPin2 (by decide)]
  · simp only [rightChannel]
    rw [hp rightMotorPin1 (by decide), hp rightMotorPin2 (by decide)]
  · rw [events_loop, if_pos h1, if_pos (Or.inl h1)]
    split_ifs <;>
      simp [heldPatterns, motorPattern, off, Function.update, trigPin1, trigPin2,
        leftMotorPin1, leftMotorPin2, rightMotorPin1, rightMotorPin2, waterPumpPin]
  · refine ⟨[Event.call Fn.loop, Event.call Fn.readUltrasonicSensors,
       Event.digitalWrite trigPin1 LOW, Event.delayMicroseconds 2,
       Event.digitalWrite trigPin1 HIGH, Event.delayMicroseconds 10,
       Event.digitalWrite trigPin1 LOW,
       Event.digitalWrite trigPin2 LOW, Event.delayMicroseconds 2,
       Event.digitalWrite trigPin2 HIGH, Event.delayMicroseconds 10,
       Event.digitalWrite trigPin2 LOW,
       Event.call Fn.readTemperature, Event.call Fn.readGasLevel,
       Event.call Fn.printSensorReadings,
       Event.print "Front Distance: ", Event.printFloat (sensed io s).frontDistance,
       Event.print " cm | Side Distance: ", Event.printFloat (sensed io s).sideDistance,
       Event.print " cm | Temperature: ", Event.printFloat (sensed io s).temperature,
       Event.print " Â°C | Gas Level: ", Event.printlnInt (sensed io s).gasLevel,
       Event.call Fn.checkHazards,
       Event.println "WARNING: High temperature detected!", Event.call Fn.activateWaterSpray,
       Event.println "Activating water spray system", Event.digitalWrite waterPumpPin HIGH,
       Event.delay 2000],
      if 400 < (sensed io s).gasLevel then [Event.println "WARNING: Harmful gas detected!"]
        else [], ?_, ?_, ?_, ?_⟩
    · rw [events_loop, if_pos h1, if_pos (Or.inl h1)]
      simp
    · simp
    · simp [motorWrites, isMotorPin, leftMotorPin1, leftMotorPin2, rightMotorPin1,
        rightMotorPin2, waterPumpPin, trigPin1, trigPin2]
    · split_ifs <;> simp [motorWrites]

/-- Witness for C16: a hot cycle (raw temperature reading 123, about 60 degrees) started
from the state at power-on. -/
theorem motors_untouched_during_spray_witness :
    (sensed { echo1 := 1765, echo2 := 294, heat := 123, gas := 100 } powerOn).temperature
      > 50.0 ∧
    heldPatterns powerOn.pins
      (events (loop { echo1 := 1765, echo2 := 294, heat := 123, gas := 100 }) powerOn) =
      [(2000, motorPattern powerOn.pins), (100, (off, off))] :=
  have h : (sensed { echo1 := 1765, echo2 := 294, heat := 123, gas := 100 } powerOn).temperature
      > 50.0 := by
    norm_num [sensed_temperature]
  ⟨h, (motors_untouched_during_spray _ powerOn h).2.2.2.1⟩

/-! ## Raw temperature threshold -/

/-- C17: composing `readTemperature` with `checkHazards`, for every raw reading `r` (in
particular every `r` in 0..1023) the temperature check fires (warning line, spray, hazard)
if and only if `r >= 103`; for `r <= 102` the result of `checkHazards` is decided by the
gas level alone.  The same holds for the raw reading of an iteration of `loop`. -/
theorem temperature_check_fires_iff (r : Int) (io : Readings) (s : State) :
    (50 < (readTemperature r s).temperature ↔ 103 ≤ r) ∧
    (Event.println "WARNING: High temperature detected!" ∈
      events (fun t => (checkHazards t).2) (readTemperature r s) ↔ 103 ≤ r) ∧
    (Event.call Fn.activateWaterSpray ∈
      events (fun t => (checkHazards t).2) (readTemperature r s) ↔ 103 ≤ r) ∧
    (checkHazards (readTemperature r s)).1 = (decide (103 ≤ r) || decide (400 < s.gasLevel)) ∧
    (Event.call Fn.activateWaterSpray ∈ events (loop io) s ↔ 103 ≤ io.heat) ∧
    (Event.println "WARNING: High temperature detected!" ∈ events (loop io) s ↔
      103 ≤ io.heat) := by
  have key : ∀ q : Int, (50 : ℚ) < ((q : ℚ) * 5.0 * 100.0) / 1024.0 ↔ 103 ≤ q := by
    intro q
    rw [lt_div_iff₀ (by norm_num)]
    have e : ((q : ℚ) * 5.0 * 100.0) = ((q * 500 : Int) : ℚ) := by
      push_cast
      norm_num
      ring
    have e2 : (50 : ℚ) * 1024.0 = ((51200 : Int) : ℚ) := by norm_num
    rw [e, e2, Int.cast_lt]
    omega
  have ht : (readTemperature r s).temperature = ((r : ℚ) * 5.0 * 100.0) / 1024.0 := rfl
  have hgas : (readTemperature r s).gasLevel = s.gasLevel := rfl
  have hk : 50 < (readTemperature r s).temperature ↔ 103 ≤ r := by
    rw [ht]
    exact key r
  have hl : 50 < (sensed io s).temperature ↔ 103 ≤ io.heat := by
    rw [sensed_temperature]
    exact key io.heat
  refine ⟨hk, ?_, ?_, ?_, ?_, ?_⟩
  · rw [events_of_trace (checkHazards_trace _), ← hk]
    split_ifs with h1 h2 <;> simp [h1]
  · rw [events_of_trace (checkHazards_trace _), ← hk]
    split_ifs with h1 h2 <;> simp [h1]
  · rw [checkHazards_fst, hgas]
    simp only [hk]
  · rw [events_loop, ← hl]
    split_ifs <;> simp_all
  · rw [events_loop, ← hl]
    split_ifs <;> simp_all

/-! ## Pattern at the end of a cycle -/

/-- C18: from every prior state the motor pins at the end of an iteration of `loop` are in
exactly one of the Forward, TurnRight or Stop patterns, never in the Backward or TurnLeft
pattern, and that final pattern is the one held during the 100 ms pacing delay, the last
delay of the cycle. -/
theorem loop_final_pattern (io : Readings) (s : State) :
    ((leftChannel (loop io s), rightChannel (loop io s)) = (forward, forward) ∨
     (leftChannel (loop io s), rightChannel (loop io s)) = (forward, reverse) ∨
     (leftChannel (loop io s), rightChannel (loop io s)) = (off, off)) ∧
    (leftChannel (loop io s), rightChannel (loop io s)) ≠ (reverse, reverse) ∧
    (leftChannel (loop io s), rightChannel (loop io s)) ≠ (reverse, forward) ∧
    motorPattern (pinsAfter s.pins (events (loop io) s)) =
      (leftChannel (loop io s), rightChannel (loop io s)) ∧
    (heldPatterns s.pins (events (loop io) s)).getLast? =
      some (100, (leftChannel (loop io s), rightChannel (loop io s))) := by
  have hc := loop_channels io s
  have hr := loop_pins_replay io s
  refine ⟨?_, ?_, ?_, ?_, ?_⟩
  · rw [hc.1, hc.2]
    split_ifs <;> simp
  · rw [hc.1, hc.2]
    split_ifs <;> simp [forward, reverse, off]
  · rw [hc.1, hc.2]
    split_ifs <;> simp [forward, reverse, off]
  · rw [← hr]
    rfl
  · rw [hc.1, hc.2, events_loop]
    by_cases h1 : 50 < (sensed io s).temperature <;>
      by_cases h2 : 400 < (sensed io s).gasLevel <;>
      by_cases h3 : (sensed io s).frontDistance < 20 <;>
      by_cases h4 : 20 < (sensed io s).sideDistance <;>
      simp [h1, h2, h3, h4, heldPatterns, motorPattern, forward, reverse, off, Function.update,
        trigPin1, trigPin2, leftMotorPin1, leftMotorPin2, rightMotorPin1, rightMotorPin2,
        waterPumpPin]

/-! ## Pin writes are not atomic -/

/-- C19: in every cycle with no hazard, `frontDistance < 20` and `sideDistance <= 20`,
there are two consecutive `digitalWrite` calls, the first two of `turnRight`, between
which both direction pins of the left channel are HIGH: `leftMotorPin1` has just been
raised and `leftMotorPin2` is still HIGH from `moveBackward`. -/
theorem left_channel_both_high (io : Readings) (s : State)
    (hz : (checkHazards (sensed io s)).1 = false)
    (hf : (sensed io s).frontDistance < 20) (hsd : (sensed io s).sideDistance ≤ 20) :
    ∃ pre post, events (loop io) s =
        pre ++ [Event.digitalWrite leftMotorPin1 HIGH, Event.digitalWrite leftMotorPin2 LOW]
          ++ post ∧
      pinsAfter s.pins (pre ++ [Event.digitalWrite leftMotorPin1 HIGH]) leftMotorPin1 = HIGH ∧
      pinsAfter s.pins (pre ++ [Event.digitalWrite leftMotorPin1 HIGH]) leftMotorPin2 = HIGH := by
  rw [checkHazards_fst] at hz
  have hz' : ¬ (50 < (sensed io s).temperature ∨ 400 < (sensed io s).gasLevel) := by
    simpa using hz
  have h1 : ¬ 50 < (sensed io s).temperature := fun h => hz' (Or.inl h)
  have h2 : ¬ 400 < (sensed io s).gasLevel := fun h => hz' (Or.inr h)
  have h4 : ¬ 20 < (sensed io s).sideDistance := not_lt.mpr hsd
  refine ⟨[Event.call Fn.loop, Event.call Fn.readUltrasonicSensors,
       Event.digitalWrite trigPin1 LOW, Event.delayMicroseconds 2,
       Event.digitalWrite trigPin1 HIGH, Event.delayMicroseconds 10,
       Event.digitalWrite trigPin1 LOW,
       Event.digitalWrite trigPin2 LOW, Event.delayMicroseconds 2,
       Event.digitalWrite trigPin2 HIGH, Event.delayMicroseconds 10,
       Event.digitalWrite trigPin2 LOW,
       Event.call Fn.readTemperature, Event.call Fn.readGasLevel,
       Event.call Fn.printSensorReadings,
       Event.print "Front Distance: ", Event.printFloat (sensed io s).frontDistance,
       Event.print " cm | Side Distance: ", Event.printFloat (sensed io s).sideDistance,
       Event.print " cm | Temperature: ", Event.printFloat (sensed io s).temperature,
       Event.print " Â°C | Gas Level: ", Event.printlnInt (sensed io s).gasLevel,
       Event.call Fn.checkHazards,
       Event.call Fn.navigateCar, Event.call Fn.moveBackward,
       Event.digitalWrite leftMotorPin1 LOW, Event.digitalWrite leftMotorPin2 HIGH,
       Event.digitalWrite rightMotorPin1 LOW, Event.digitalWrite rightMotorPin2 HIGH,
       Event.println "Moving backward", Event.delay 500,
       Event.call Fn.turnRight],
      [Event.digitalWrite rightMotorPin1 LOW, Event.digitalWrite rightMotorPin2 HIGH,
       Event.println "Turning right", Event.delay 700, Event.delay 100], ?_, ?_, ?_⟩
  · rw [events_loop, if_neg h1, if_neg h2, if_neg hz', if_pos hf, if_neg h4]
    simp
  · simp [pinsAfter, Function.update, trigPin1, trigPin2, leftMotorPin1, leftMotorPin2,
      rightMotorPin1, rightMotorPin2]
  · simp [pinsAfter, Function.update, trigPin1, trigPin2, leftMotorPin1, leftMotorPin2,
      rightMotorPin1, rightMotorPin2]

/-- Witness for C19: no hazard, front obstacle and blocked side (both about 5 cm), from the
state at power-on. -/
theorem left_channel_both_high_witness :
    ∃ pre post, events (loop { echo1 := 294, echo2 := 294, heat := 51, gas := 100 }) powerOn =
        pre ++ [Event.digitalWrite leftMotorPin1 HIGH, Event.digitalWrite leftMotorPin2 LOW]
          ++ post ∧
      pinsAfter powerOn.pins (pre ++ [Event.digitalWrite leftMotorPin1 HIGH]) leftMotorPin1
        = HIGH ∧
      pinsAfter powerOn.pins (pre ++ [Event.digitalWrite leftMotorPin1 HIGH]) leftMotorPin2
        = HIGH :=
  left_channel_both_high { echo1 := 294, echo2 := 294, heat := 51, gas := 100 } powerOn
    (by rw [checkHazards_fst]; norm_num [sensed_temperature, sensed_gasLevel])
    (by norm_num [sensed_frontDistance]) (by norm_num [sensed_sideDistance])

end HeatWaveHunter
